import Mathlib

/-!
Verification development for the Legal Case Finder repository
(`legal_case_finder.py` — CLI indexer/search — and
`legal_case_finder_gui2.py` — GUI indexer/search).

The Python code is shallowly embedded below.  Conventions:

* Python strings are modelled by `String` / `List Char`; `str.lower`,
  `str.strip`, `str.find`, slicing and `str.replace` are modelled by the
  `lowerL`, `pyStrip`, `pyFind`, `pySlice`, `normNL` functions on `List Char`.
  (`Char.toLower` / `Char.isWhitespace` model the ASCII behaviour of the
  Python operations, which is all the repository relies on.)
* A PDF file as seen by `pdfplumber.open` / `pdf2image.convert_from_path`
  is modelled by `PdfDoc`: `openOk = false` means the library call raises
  before any page is produced; each page either yields a text result
  (`PageOutcome.ok`, with `none` modelling Python `None` from
  `page.extract_text()`) or raises mid-loop (`PageOutcome.err`).
* The SQLite tables are modelled by lists: the `cases` / `cases_fts` table
  as a `List CaseRow` (insertion order = rowid order) and the `files_meta`
  table as a `List (String × Int)`.  `mtime` (a REAL in the database) is
  modelled as `Int`, since the code only ever compares mtimes for equality.
  `DELETE ... WHERE path = ?` is a filter, an insert appends, and
  `INSERT OR REPLACE` on a unique/primary-key column deletes the
  conflicting row and appends the new one.
* FTS5 `MATCH` semantics (porter-stemmed token matching) belong to the
  SQLite engine; queries in native full-text mode therefore take the match
  predicate as a parameter.  The `year = ?` / `content LIKE ?` predicates,
  which the code builds itself, are modelled concretely.
* The per-candidate mutable state of the GUI run (the `cancel_flag`
  closure, read once per loop iteration) is modelled by a function
  `Nat → Bool` of the iteration counter.
-/

/-- Python `s.lower()` on a list of characters. -/
def lowerL (l : List Char) : List Char := l.map Char.toLower

/-- Python `s.strip()` (no arguments): drop leading and trailing whitespace. -/
def pyStrip (l : List Char) : List Char :=
  ((l.dropWhile Char.isWhitespace).reverse.dropWhile Char.isWhitespace).reverse

/-- Python `s.strip()` at `String` level. -/
def pyStripStr (s : String) : String := String.mk (pyStrip s.data)

/-- Does the pattern `p` start the list `l`?  (Helper for `pyFind`.) -/
def startsWithL : List Char → List Char → Bool
  | [], _ => true
  | _ :: _, [] => false
  | a :: ps, b :: ls => decide (a = b) && startsWithL ps ls

/-- Helper for `pyFind`: first index `≥ i` at which `p` occurs. -/
def pyFindAux (p : List Char) : List Char → Nat → Option Nat
  | [], i => if startsWithL p [] then some i else none
  | a :: t, i => if startsWithL p (a :: t) then some i else pyFindAux p t (i + 1)

/-- Python `hay.find(pat)`; `none` models the `-1` result. -/
def pyFind (hay pat : List Char) : Option Nat := pyFindAux pat hay 0

/-- Python slice `l[a:b]` for `0 ≤ a`, `b` clipped by the caller. -/
def pySlice (l : List Char) (a b : Nat) : List Char := (l.drop a).take (b - a)

/-- Python `s.replace("\n", " ")`. -/
def normNL (l : List Char) : List Char :=
  l.map (fun c => if c = '\n' then ' ' else c)

/-- Python `"\n".join(texts)`. -/
def joinNL (l : List String) : String := String.intercalate "\n" l

/-! ### Text extraction (`extract_text_pdfplumber`, `ocr_pdf`) -/

/-- One page of a PDF as seen by the extraction loop: the page call either
returns a text value (`none` models Python `None`) or raises. -/
inductive PageOutcome where
  | ok (txt : Option String)
  | err
deriving DecidableEq

/-- A PDF document as seen by `pdfplumber.open` / `convert_from_path`:
`openOk = false` models the opening call itself raising. -/
structure PdfDoc where
  openOk : Bool
  pages : List PageOutcome
deriving DecidableEq

/-- The extraction loop body: `texts` is the accumulator declared before the
`try:`; `if txt: texts.append(txt)` skips `None` and the empty string; a
page that raises aborts the loop, keeping what was accumulated so far. -/
def pageTexts : List PageOutcome → List String → List String
  | [], acc => acc
  | PageOutcome.err :: _, acc => acc
  | PageOutcome.ok t :: rest, acc =>
      pageTexts rest (acc ++ (match t with
        | some s => if s = "" then [] else [s]
        | none => []))

/-- `extract_text_pdfplumber(path)`: page texts joined by `"\n"`; any
exception inside the `try:` is swallowed and the accumulated texts are
returned (the empty join if `pdfplumber.open` itself raised). -/
def extract_text_pdfplumber (d : PdfDoc) : String :=
  if d.openOk then joinNL (pageTexts d.pages []) else ""

/-- `ocr_pdf(path, dpi, poppler_path)`: identical loop shape, with
`convert_from_path` as the opening call and `pytesseract.image_to_string`
as the per-page call.  The `dpi` / `poppler_path` arguments only affect the
external rasterizer and are not modelled. -/
def ocr_pdf (d : PdfDoc) : String :=
  if d.openOk then joinNL (pageTexts d.pages []) else ""

/-- Is a page outcome a non-raising one?  (Specification-side helper used to
describe the loop declaratively.) -/
def pageOk : PageOutcome → Bool
  | PageOutcome.ok _ => true
  | PageOutcome.err => false

/-- The text a non-raising page contributes, if any.  (Specification-side
helper used to describe the loop declaratively.) -/
def pageText : PageOutcome → Option String
  | PageOutcome.ok (some s) => if s = "" then none else some s
  | PageOutcome.ok none => none
  | PageOutcome.err => none

/-- `is_likely_scanned(text, min_chars=100)`. -/
def is_likely_scanned (text : String) (min_chars : Nat := 100) : Bool :=
  decide ((pyStripStr text).length < min_chars)

/-- `safe_text(s)`: `s if s else ""` (the empty string is falsy). -/
def safe_text (s : String) : String := if s = "" then "" else s

/-- The OCR-fallback selection in `index_pdfs` (lines 138–144): run OCR only
when enabled and the primary text looks scanned, then keep the OCR text
only when its stripped length is strictly greater.  Returns (whether the
OCR fallback was invoked, the text kept). -/
def select_extracted_text (use_ocr : Bool) (min_text_chars : Nat)
    (text ocr_text : String) : Bool × String :=
  if use_ocr && is_likely_scanned text min_text_chars then
    (true,
      if (pyStripStr ocr_text).length > (pyStripStr text).length then ocr_text
      else text)
  else (false, text)

/-! ### Path helpers (`os.path` on POSIX-style paths) -/

/-- `os.path.basename(p)`: the suffix after the last `/`. -/
def basenameL (l : List Char) : List Char :=
  (l.reverse.takeWhile (fun c => decide (c ≠ '/'))).reverse

/-- `os.path.dirname(p)`: the part before the last `/`, with trailing
slashes stripped unless the result is all slashes. -/
def dirnameL (l : List Char) : List Char :=
  let head := (l.reverse.dropWhile (fun c => decide (c ≠ '/'))).reverse
  if head.all (fun c => decide (c = '/')) then head
  else (head.reverse.dropWhile (fun c => decide (c = '/'))).reverse

/-- Last index of `c` in `l`, if any. -/
def rfindIdx (c : Char) (l : List Char) : Option Nat :=
  match l.reverse.findIdx? (fun x => decide (x = c)) with
  | none => none
  | some i => some (l.length - 1 - i)

/-- The root part of `os.path.splitext` applied to a basename: strip from
the last `.` unless every character before it is a `.`. -/
def splitextRootL (b : List Char) : List Char :=
  match rfindIdx '.' b with
  | none => b
  | some d => if (b.take d).any (fun c => decide (c ≠ '.')) then b.take d else b

/-- `os.path.basename` at `String` level. -/
def basenameStr (p : String) : String := String.mk (basenameL p.data)

/-- `os.path.dirname` at `String` level. -/
def dirnameStr (p : String) : String := String.mk (dirnameL p.data)

/-- `find_case_name_from_path(path)`:
`os.path.splitext(os.path.basename(path))[0]`. -/
def find_case_name_from_path (p : String) : String :=
  String.mk (splitextRootL (basenameL p.data))

/-! ### The store (`cases` / `cases_fts` and `files_meta` tables) -/

/-- One row of the `cases` / `cases_fts` table. -/
structure CaseRow where
  case_name : String
  year : String
  path : String
  content : String
deriving DecidableEq

/-- `DELETE FROM cases_fts WHERE path = ?`. -/
def delete_fts (rows : List CaseRow) (p : String) : List CaseRow :=
  rows.filter (fun r => decide (r.path ≠ p))

/-- The native-mode upsert: `DELETE FROM cases_fts WHERE path = ?` followed
by `INSERT INTO cases_fts ... VALUES ...`. -/
def upsert_fts (rows : List CaseRow) (r : CaseRow) : List CaseRow :=
  delete_fts rows r.path ++ [r]

/-- The fallback-mode upsert: `INSERT OR REPLACE INTO cases ...` on the
`path UNIQUE` column — SQLite deletes the conflicting row and inserts the
new one (with a fresh `id`, hence at the end in rowid order). -/
def insert_or_replace (rows : List CaseRow) (r : CaseRow) : List CaseRow :=
  rows.filter (fun r0 => decide (r0.path ≠ r.path)) ++ [r]

/-- `SELECT mtime FROM files_meta WHERE path = ?` (first matching row). -/
def metaLookup : List (String × Int) → String → Option Int
  | [], _ => none
  | q :: t, p => if q.1 = p then some q.2 else metaLookup t p

/-- `INSERT OR REPLACE INTO files_meta (path, mtime) VALUES (?, ?)`. -/
def metaUpsert (l : List (String × Int)) (p : String) (m : Int) :
    List (String × Int) :=
  l.filter (fun q => decide (q.1 ≠ p)) ++ [(p, m)]

/-! ### Searching (`search_db`) -/

/-- The `year = ?` predicate appended with `AND` when a year filter is
supplied: exact TEXT equality in SQLite. -/
def matchYear : Option String → CaseRow → Bool
  | none, _ => true
  | some y, r => decide (r.year = y)

/-- The fallback text predicate `content LIKE '%query%'`: SQLite `LIKE` is
case-insensitive containment (the code does not escape `%`/`_`, which the
modelled queries do not contain). -/
def likeContains (content q : String) : Bool :=
  (pyFind (lowerL content.data) (lowerL q.data)).isSome

/-- `search_db` row selection in native full-text mode:
`SELECT ... FROM cases_fts WHERE year = ? AND cases_fts MATCH ? LIMIT ?`
(or without the `year = ?` conjunct).  The `MATCH` predicate is supplied by
the FTS5 engine and is a parameter here. -/
def search_db_fts (rows : List CaseRow) (ftsMatch : CaseRow → Bool)
    (year : Option String) (limit : Nat) : List CaseRow :=
  (rows.filter (fun r => matchYear year r && ftsMatch r)).take limit

/-- `search_db` row selection in fallback mode:
`SELECT ... FROM cases WHERE year = ? AND content LIKE ? LIMIT ?`
(or without the `year = ?` conjunct). -/
def search_db_fallback (rows : List CaseRow) (q : String)
    (year : Option String) (limit : Nat) : List CaseRow :=
  (rows.filter (fun r => matchYear year r && likeContains r.content q)).take limit

/-! ### Snippets (`highlight_snippet`, CLI and GUI variants) -/

/-- The `<<` opening highlight marker. -/
def hlOpen : List Char := ['<', '<']

/-- The `>>` closing highlight marker. -/
def hlClose : List Char := ['>', '>']

/-- The stripped window slice of `content` around a match at `idx`:
`content[max(0, idx - window//2) : min(len(content), idx + window//2)].strip()`
(natural-number subtraction is the `max(0, ·)`). -/
def snipOf (content : List Char) (idx w : Nat) : List Char :=
  pyStrip (pySlice content (idx - w / 2) (min content.length (idx + w / 2)))

/-- `highlight_snippet(content, query, window=120)` of the CLI module, on
characters.  No newline replacement is performed in this variant. -/
def hlChars (content query : List Char) (window : Nat) : List Char :=
  match pyFind (lowerL content) (lowerL query) with
  | none => pyStrip (content.take (min window content.length))
  | some idx =>
      let snip := snipOf content idx window
      match pyFind (lowerL snip) (lowerL query) with
      | some rel =>
          snip.take rel ++ hlOpen ++ (snip.drop rel).take query.length
            ++ hlClose ++ snip.drop (rel + query.length)
      | none => snip

/-- `highlight_snippet` of the CLI module at `String` level. -/
def highlight_snippet (content query : String) (window : Nat := 120) : String :=
  String.mk (hlChars content.data query.data window)

/-- `highlight_snippet(content, query, window=180)` of the GUI module, on
characters: empty content short-circuits to `""`, and every other return
path applies `.replace("\n", " ")`. -/
def hlCharsGUI (content query : List Char) (window : Nat) : List Char :=
  if content = [] then []
  else
    match pyFind (lowerL content) (lowerL query) with
    | none => normNL (pyStrip (content.take (min window content.length)))
    | some idx =>
        let snip := snipOf content idx window
        match pyFind (lowerL snip) (lowerL query) with
        | some rel =>
            normNL (snip.take rel ++ hlOpen ++ (snip.drop rel).take query.length
              ++ hlClose ++ snip.drop (rel + query.length))
        | none => normNL snip

/-- `highlight_snippet` of the GUI module at `String` level. -/
def highlight_snippet_gui (content query : String) (window : Nat := 180) :
    String :=
  String.mk (hlCharsGUI content.data query.data window)

/-! ### The indexing pipelines (`index_pdfs`, `index_pdfs_gui`) -/

/-- Whether and how the guarded `cases_fts` write of the GUI indexer fails:
the `try:` block runs `DELETE` then `INSERT`, so a raise either happens
before anything was written (`failDelete`) or after the delete
(`failInsert`). -/
inductive FtsWrite where
  | ok
  | failDelete
  | failInsert
deriving DecidableEq

/-- One candidate file discovered by the `os.walk` scan, together with the
behaviour of the external calls made for it: `mtime = none` models
`os.path.getmtime` raising; `pdf` / `ocr` are the document as seen by
`pdfplumber` / `pdf2image`; `ftsWrite` is the behaviour of the guarded
native-mode write (GUI module only — the CLI module has no `try:` there). -/
structure Candidate where
  path : String
  mtime : Option Int
  pdf : PdfDoc
  ocr : PdfDoc
  ftsWrite : FtsWrite
deriving DecidableEq

/-- What happened to one candidate. -/
inductive Outcome where
  | skippedUnreadable
  | skippedUnchanged
  | processed
deriving DecidableEq

/-- The persistent store: the `files_meta` table and the `cases` /
`cases_fts` table. -/
structure DB where
  files_meta : List (String × Int)
  cases : List CaseRow
deriving DecidableEq

/-- The body of the `index_pdfs` loop of the CLI module for one candidate:
unreadable mtime → `continue` with no store access; stored mtime equal to
the current one → skip with no store access; otherwise extract (with the
OCR fallback selection), upsert the case row, and upsert the mtime. -/
def index_pdfs_step (has_fts use_ocr : Bool) (min_text_chars : Nat)
    (db : DB) (c : Candidate) : DB × Outcome :=
  match c.mtime with
  | none => (db, Outcome.skippedUnreadable)
  | some m =>
    if metaLookup db.files_meta c.path = some m then (db, Outcome.skippedUnchanged)
    else
      let year := basenameStr (dirnameStr c.path)
      let text0 := extract_text_pdfplumber c.pdf
      let text1 := (select_extracted_text use_ocr min_text_chars text0
        (ocr_pdf c.ocr)).2
      let text := safe_text text1
      let case_name := find_case_name_from_path c.path
      let row : CaseRow := ⟨case_name, year, c.path, text⟩
      let cases' := if has_fts then upsert_fts db.cases row
                    else insert_or_replace db.cases row
      (⟨metaUpsert db.files_meta c.path m, cases'⟩, Outcome.processed)

/-- The body of the `index_pdfs_gui` loop of the GUI module for one
candidate (the cancellation check happens before this body runs; the OCR
fallback was removed from the GUI module; the native-mode write is guarded
by `try: ... except: pass`). -/
def index_pdfs_gui_step (has_fts : Bool) (db : DB) (c : Candidate) :
    DB × Outcome :=
  match c.mtime with
  | none => (db, Outcome.skippedUnreadable)
  | some m =>
    if metaLookup db.files_meta c.path = some m then (db, Outcome.skippedUnchanged)
    else
      let year := basenameStr (dirnameStr c.path)
      let text := safe_text (extract_text_pdfplumber c.pdf)
      let case_name := find_case_name_from_path c.path
      let row : CaseRow := ⟨case_name, year, c.path, text⟩
      let cases' :=
        if has_fts then
          match c.ftsWrite with
          | FtsWrite.ok => upsert_fts db.cases row
          | FtsWrite.failDelete => db.cases
          | FtsWrite.failInsert => delete_fts db.cases c.path
        else insert_or_replace db.cases row
      (⟨metaUpsert db.files_meta c.path m, cases'⟩, Outcome.processed)

/-- The `index_pdfs_gui` loop: `cancel` is the value returned by the
`cancel_flag()` read at the start of iteration `n` (every iteration,
whatever its outcome, increments the processed counter).  Returns the final
store state and the processed count. -/
def index_pdfs_gui_loop (has_fts : Bool) (cancel : Nat → Bool) :
    DB → Nat → List Candidate → DB × Nat
  | db, n, [] => (db, n)
  | db, n, c :: rest =>
    if cancel n then (db, n)
    else index_pdfs_gui_loop has_fts cancel
      (index_pdfs_gui_step has_fts db c).1 (n + 1) rest

/-! ### Helper lemmas -/

theorem metaLookup_metaUpsert_self (l : List (String × Int)) (p : String) (m : Int) :
    metaLookup (metaUpsert l p m) p = some m := by
  induction l with
  | nil => simp [metaUpsert, metaLookup]
  | cons a t ih =>
      by_cases h : a.1 = p
      · simpa [metaUpsert, metaLookup, h] using ih
      · simpa [metaUpsert, metaLookup, h] using ih

theorem filter_upsert_fts_self (rows : List CaseRow) (r : CaseRow) :
    (upsert_fts rows r).filter (fun x => decide (x.path = r.path)) = [r] := by
  simp [upsert_fts, delete_fts, List.filter_filter]

theorem filter_upsert_fts_ne (rows : List CaseRow) (r : CaseRow) (p : String)
    (hp : p ≠ r.path) :
    (upsert_fts rows r).filter (fun x => decide (x.path = p)) =
      rows.filter (fun x => decide (x.path = p)) := by
  have hr : ¬ (r.path = p) := fun h => hp h.symm
  simp only [upsert_fts, delete_fts, List.filter_append, List.filter_filter]
  rw [show ([r].filter (fun x => decide (x.path = p))) = [] by simp [hr]]
  rw [List.append_nil]
  apply List.filter_congr
  intro a _
  by_cases h2 : a.path = p
  · have h1 : a.path ≠ r.path := by rw [h2]; exact hp
    simp [h1, h2, hp]
  · simp [h2]

theorem length_filter_upsert_fts_le (rows : List CaseRow) (r : CaseRow) (p : String)
    (h : (rows.filter (fun x => decide (x.path = p))).length ≤ 1) :
    ((upsert_fts rows r).filter (fun x => decide (x.path = p))).length ≤ 1 := by
  by_cases hp : p = r.path
  · subst hp
    rw [filter_upsert_fts_self]
    exact Nat.le_refl 1
  · rw [filter_upsert_fts_ne rows r p hp]
    exact h

theorem length_filter_foldl_upsert_fts (ops : List CaseRow) :
    ∀ (rows : List CaseRow),
      (∀ q, (rows.filter (fun x => decide (x.path = q))).length ≤ 1) →
      ∀ p, (((ops.foldl upsert_fts rows).filter
        (fun x => decide (x.path = p))).length ≤ 1) := by
  induction ops with
  | nil => intro rows h p; exact h p
  | cons r t ih =>
      intro rows h p
      exact ih (upsert_fts rows r)
        (fun q => length_filter_upsert_fts_le rows r q (h q)) p

theorem insert_or_replace_eq_upsert_fts :
    insert_or_replace = upsert_fts := rfl

theorem pyStrip_subseg (l : List Char) : ∃ u v, u ++ pyStrip l ++ v = l := by
  refine ⟨l.takeWhile Char.isWhitespace,
    ((l.dropWhile Char.isWhitespace).reverse.takeWhile Char.isWhitespace).reverse,
    ?_⟩
  have h2 := List.takeWhile_append_dropWhile (p := Char.isWhitespace)
    (l := (l.dropWhile Char.isWhitespace).reverse)
  have h4 := congrArg List.reverse h2
  rw [List.reverse_append, List.reverse_reverse] at h4
  calc l.takeWhile Char.isWhitespace ++ pyStrip l ++
        ((l.dropWhile Char.isWhitespace).reverse.takeWhile Char.isWhitespace).reverse
      = l.takeWhile Char.isWhitespace ++ (pyStrip l ++
        ((l.dropWhile Char.isWhitespace).reverse.takeWhile
          Char.isWhitespace).reverse) := by rw [List.append_assoc]
    _ = l.takeWhile Char.isWhitespace ++ l.dropWhile Char.isWhitespace :=
        congrArg (l.takeWhile Char.isWhitespace ++ ·) h4
    _ = l := List.takeWhile_append_dropWhile Char.isWhitespace l

theorem pySlice_subseg (l : List Char) (a b : Nat) :
    ∃ u v, u ++ pySlice l a b ++ v = l := by
  refine ⟨l.take a, (l.drop a).drop (b - a), ?_⟩
  rw [pySlice, List.append_assoc, List.take_append_drop, List.take_append_drop]

theorem subseg_trans {x m l : List Char}
    (h1 : ∃ u v, u ++ x ++ v = m) (h2 : ∃ u v, u ++ m ++ v = l) :
    ∃ u v, u ++ x ++ v = l := by
  obtain ⟨u, v, rfl⟩ := h1
  obtain ⟨a, b, rfl⟩ := h2
  exact ⟨a ++ u, v ++ b, by simp [List.append_assoc]⟩

theorem pyStrip_length_le (l : List Char) : (pyStrip l).length ≤ l.length := by
  obtain ⟨u, v, h⟩ := pyStrip_subseg l
  have h2 := congrArg List.length h
  simp [List.length_append] at h2
  omega

theorem startsWithL_take :
    ∀ p l : List Char, startsWithL p l = true → l.take p.length = p := by
  intro p
  induction p with
  | nil => intro l _; simp
  | cons a ps ih =>
      intro l h
      cases l with
      | nil => simp [startsWithL] at h
      | cons b ls =>
          simp only [startsWithL, Bool.and_eq_true, decide_eq_true_eq] at h
          simp [h.1.symm, ih ls h.2]

theorem pyFindAux_some (p : List Char) :
    ∀ (l : List Char) (i j : Nat), pyFindAux p l i = some j →
      i ≤ j ∧ startsWithL p (l.drop (j - i)) = true := by
  intro l
  induction l with
  | nil =>
      intro i j h
      by_cases hs : startsWithL p [] = true
      · simp [pyFindAux, hs] at h
        subst h
        simpa using hs
      · simp [pyFindAux, hs] at h
  | cons a t ih =>
      intro i j h
      by_cases hs : startsWithL p (a :: t) = true
      · simp [pyFindAux, hs] at h
        subst h
        simpa using hs
      · simp [pyFindAux, hs] at h
        obtain ⟨h1, h2⟩ := ih (i + 1) j h
        refine ⟨by omega, ?_⟩
        have h3 : j - i = (j - (i + 1)) + 1 := by omega
        rw [h3]
        simpa using h2

theorem pyFind_some (hay pat : List Char) (j : Nat)
    (h : pyFind hay pat = some j) :
    startsWithL pat (hay.drop j) = true := by
  have h2 := pyFindAux_some pat hay 0 j h
  simpa using h2.2

theorem pageTexts_eq (ps : List PageOutcome) :
    ∀ acc, pageTexts ps acc = acc ++ (ps.takeWhile pageOk).filterMap pageText := by
  induction ps with
  | nil => intro acc; simp [pageTexts]
  | cons p t ih =>
      intro acc
      cases p with
      | err => simp [pageTexts, pageOk]
      | ok txt =>
          cases txt with
          | none => simpa [pageTexts, pageOk, pageText] using ih acc
          | some s =>
              by_cases hs : s = ""
              · simpa [pageTexts, pageOk, pageText, hs] using ih acc
              · simp [pageTexts, pageOk, pageText, hs, ih]

/-! ### Sample data reused by witnesses and counterexamples -/

/-- A readable candidate with a one-page text PDF. -/
def cSample : Candidate :=
  ⟨"/cases/2020/a.pdf", some 5,
    ⟨true, [PageOutcome.ok (some "hello world")]⟩, ⟨true, []⟩, FtsWrite.ok⟩

/-- A candidate whose `os.path.getmtime` call raises. -/
def cUnreadable : Candidate :=
  ⟨"/cases/2020/u.pdf", none, ⟨true, []⟩, ⟨true, []⟩, FtsWrite.ok⟩

/-! ### Claims -/

/-- C1: for a candidate whose mtime is readable, both indexing pipelines
take the processing branch (extract and upsert) exactly when the stored
mtime for the path differs from the current one or no stored record
exists; when the stored mtime equals the current one the candidate is
skipped and the store is left completely unchanged (the extractor is only
ever applied inside the processing branch). -/
theorem c1_change_detection (has_fts use_ocr : Bool) (min_text_chars : Nat)
    (db : DB) (c : Candidate) (m : Int) (hm : c.mtime = some m) :
    ((index_pdfs_gui_step has_fts db c).2 = Outcome.processed ↔
      metaLookup db.files_meta c.path ≠ some m)
    ∧ ((index_pdfs_gui_step has_fts db c).2 ≠ Outcome.processed →
      (index_pdfs_gui_step has_fts db c).1 = db)
    ∧ ((index_pdfs_step has_fts use_ocr min_text_chars db c).2 = Outcome.processed ↔
      metaLookup db.files_meta c.path ≠ some m)
    ∧ ((index_pdfs_step has_fts use_ocr min_text_chars db c).2 ≠ Outcome.processed →
      (index_pdfs_step has_fts use_ocr min_text_chars db c).1 = db) := by
  by_cases h : metaLookup db.files_meta c.path = some m
  · simp [index_pdfs_gui_step, index_pdfs_step, hm, h]
  · simp [index_pdfs_gui_step, index_pdfs_step, hm, h]

/-- C1 witness: the change-detection characterisation at a concrete
candidate and an empty store. -/
theorem c1_change_detection_witness :
    ((index_pdfs_gui_step true ⟨[], []⟩ cSample).2 = Outcome.processed ↔
      metaLookup ([] : List (String × Int)) cSample.path ≠ some 5)
    ∧ ((index_pdfs_gui_step true ⟨[], []⟩ cSample).2 ≠ Outcome.processed →
      (index_pdfs_gui_step true ⟨[], []⟩ cSample).1 = ⟨[], []⟩)
    ∧ ((index_pdfs_step true false 100 ⟨[], []⟩ cSample).2 = Outcome.processed ↔
      metaLookup ([] : List (String × Int)) cSample.path ≠ some 5)
    ∧ ((index_pdfs_step true false 100 ⟨[], []⟩ cSample).2 ≠ Outcome.processed →
      (index_pdfs_step true false 100 ⟨[], []⟩ cSample).1 = ⟨[], []⟩) :=
  c1_change_detection true false 100 ⟨[], []⟩ cSample 5 rfl

/-- C2: each backend's upsert leaves exactly one row for the upserted
path, carrying the new record, whatever rows existed before; and any
sequence of upserts starting from the empty table maintains at most one
row per path. -/
theorem c2_replace_not_duplicate (rows : List CaseRow) (r : CaseRow)
    (ops : List CaseRow) (p : String) :
    (upsert_fts rows r).filter (fun x => decide (x.path = r.path)) = [r]
    ∧ (insert_or_replace rows r).filter (fun x => decide (x.path = r.path)) = [r]
    ∧ ((ops.foldl upsert_fts []).filter (fun x => decide (x.path = p))).length ≤ 1
    ∧ ((ops.foldl insert_or_replace []).filter
        (fun x => decide (x.path = p))).length ≤ 1 := by
  refine ⟨filter_upsert_fts_self rows r, ?_, ?_, ?_⟩
  · rw [insert_or_replace_eq_upsert_fts]
    exact filter_upsert_fts_self rows r
  · exact length_filter_foldl_upsert_fts ops [] (fun q => by simp) p
  · rw [insert_or_replace_eq_upsert_fts]
    exact length_filter_foldl_upsert_fts ops [] (fun q => by simp) p

/-- C3: with a year filter supplied, both backends combine the filter with
the text predicate by AND using exact string equality on the `year`
column: every returned row has `year` exactly equal to the filter string
and satisfies the text predicate. -/
theorem c3_facet_filter_exact (rows : List CaseRow) (ftsMatch : CaseRow → Bool)
    (q y : String) (limit : Nat) (r : CaseRow) :
    (r ∈ search_db_fts rows ftsMatch (some y) limit →
      r.year = y ∧ ftsMatch r = true)
    ∧ (r ∈ search_db_fallback rows q (some y) limit →
      r.year = y ∧ likeContains r.content q = true) := by
  constructor
  · intro hr
    have h1 : r ∈ rows.filter (fun x => matchYear (some y) x && ftsMatch x) :=
      List.take_subset limit _ hr
    have h2 := (List.mem_filter.mp h1).2
    simpa [matchYear] using h2
  · intro hr
    have h1 : r ∈ rows.filter
        (fun x => matchYear (some y) x && likeContains x.content q) :=
      List.take_subset limit _ hr
    have h2 := (List.mem_filter.mp h1).2
    simpa [matchYear] using h2

/-- C3 witness: a concrete fallback query with year filter `"2020"` over a
table also holding years `"2020b"` and `"02020"`; the returned row's year
is exactly `"2020"`. -/
theorem c3_facet_filter_exact_witness :
    (⟨"a", "2020", "p1", "x theft y"⟩ : CaseRow).year = "2020"
    ∧ likeContains "x theft y" "theft" = true :=
  (c3_facet_filter_exact
    [⟨"a", "2020", "p1", "x theft y"⟩, ⟨"b", "2020b", "p2", "theft"⟩,
      ⟨"c", "02020", "p3", "theft"⟩]
    (fun _ => true) "theft" "2020" 50 ⟨"a", "2020", "p1", "x theft y"⟩).2
    (by decide)

/-- C4 counterexample: a document whose second page raises after the first
page yielded text.  The extraction stage returns the accumulated text
`"hello"`, not the empty string the claim requires for a failing stage
(the `texts` accumulator lives outside the `try:` block); likewise for the
OCR stage. -/
theorem c4_counterexample :
    extract_text_pdfplumber
      ⟨true, [PageOutcome.ok (some "hello"), PageOutcome.err]⟩ = "hello"
    ∧ ocr_pdf ⟨true, [PageOutcome.ok (some "hi"), PageOutcome.err]⟩ = "hi"
    ∧ ("hello" : String) ≠ "" := by
  refine ⟨rfl, rfl, by decide⟩

/-- C4 amended: extraction is total — every input yields a string and no
exception propagates.  A failure of the opening call (corrupt or
unreadable document, rasterization failure) yields the empty string; a
per-page failure aborts the loop and yields the newline-join of the page
texts accumulated up to that point (so a failure on the first page also
yields the empty string, but a mid-document failure yields the partial
text, not the empty string). -/
theorem c4_extraction_total (d o : PdfDoc) :
    (d.openOk = false → extract_text_pdfplumber d = "")
    ∧ (d.openOk = true → extract_text_pdfplumber d =
        joinNL ((d.pages.takeWhile pageOk).filterMap pageText))
    ∧ (o.openOk = false → ocr_pdf o = "")
    ∧ (o.openOk = true → ocr_pdf o =
        joinNL ((o.pages.takeWhile pageOk).filterMap pageText)) := by
  refine ⟨fun h => ?_, fun h => ?_, fun h => ?_, fun h => ?_⟩ <;>
    simp [extract_text_pdfplumber, ocr_pdf, h, pageTexts_eq]

/-- C4 witness: the amended statement applied to a document whose opening
call raises and to a well-behaved one-page document. -/
theorem c4_extraction_total_witness :
    extract_text_pdfplumber ⟨false, [PageOutcome.ok (some "x")]⟩ = ""
    ∧ ocr_pdf ⟨true, [PageOutcome.ok (some "x")]⟩ =
        joinNL ((([PageOutcome.ok (some "x")] : List PageOutcome).takeWhile
          pageOk).filterMap pageText) :=
  ⟨(c4_extraction_total ⟨false, [PageOutcome.ok (some "x")]⟩
      ⟨true, [PageOutcome.ok (some "x")]⟩).1 rfl,
    (c4_extraction_total ⟨false, [PageOutcome.ok (some "x")]⟩
      ⟨true, [PageOutcome.ok (some "x")]⟩).2.2.2 rfl⟩

/-- C5: with the OCR fallback enabled, the fallback is invoked exactly
when the primary text's stripped length is below the configured minimum,
and the text kept is the OCR text exactly when its stripped length is
strictly greater than the primary text's (so the primary text is kept on a
tie). -/
theorem c5_ocr_selection (min_text_chars : Nat) (text ocr_text : String) :
    (select_extracted_text true min_text_chars text ocr_text).1 =
      decide ((pyStripStr text).length < min_text_chars)
    ∧ (select_extracted_text true min_text_chars text ocr_text).2 =
      (if (pyStripStr text).length < min_text_chars ∧
          (pyStripStr text).length < (pyStripStr ocr_text).length
        then ocr_text else text) := by
  by_cases h1 : (pyStripStr text).length < min_text_chars
  · by_cases h2 : (pyStripStr text).length < (pyStripStr ocr_text).length
    · simp [select_extracted_text, is_likely_scanned, h1, h2]
    · simp [select_extracted_text, is_likely_scanned, h1, h2]
  · simp [select_extracted_text, is_likely_scanned, h1]

/-- C6 counterexample: the CLI `highlight_snippet` does not normalize
newline characters to spaces — `"a\ntheft"` keeps its newline in the
returned snippet (the GUI variant does normalize it). -/
theorem c6_counterexample :
    highlight_snippet "a\ntheft" "theft" 120 = "a\n<<theft>>"
    ∧ ('\n' ∈ ("a\n<<theft>>" : String).data)
    ∧ highlight_snippet_gui "a\ntheft" "theft" 180 = "a <<theft>>" := by
  refine ⟨by decide, by decide, by decide⟩

/-- C6 amended: when the query occurs case-insensitively in the content at
index `idx`, the CLI snippet is built from the window
`content[max(0, idx - window/2) : min(len, idx + window/2)]` stripped of
surrounding whitespace — a substring of the content.  If the query
re-occurs inside that clipped window, its first occurrence is wrapped in
`<<`/`>>`, the snippet with the markers removed is exactly the stripped
window (hence a substring of the content), and the wrapped portion equals
the query up to case; if the query does not fit inside the clipped window
the snippet is returned unwrapped.  Newlines are normalized to spaces only
by the GUI variant, not by this CLI variant. -/
theorem c6_snippet_found (content query : List Char) (w idx : Nat)
    (hfind : pyFind (lowerL content) (lowerL query) = some idx) :
    (∃ u v, u ++ snipOf content idx w ++ v = content)
    ∧ (∀ rel, pyFind (lowerL (snipOf content idx w)) (lowerL query) = some rel →
        ∃ pre mat post,
          hlChars content query w = pre ++ hlOpen ++ mat ++ hlClose ++ post
          ∧ pre ++ mat ++ post = snipOf content idx w
          ∧ lowerL mat = lowerL query)
    ∧ (pyFind (lowerL (snipOf content idx w)) (lowerL query) = none →
        hlChars content query w = snipOf content idx w) := by
  refine ⟨?_, ?_, ?_⟩
  · exact subseg_trans (pyStrip_subseg _) (pySlice_subseg content _ _)
  · intro rel hrel
    refine ⟨(snipOf content idx w).take rel,
      ((snipOf content idx w).drop rel).take query.length,
      (snipOf content idx w).drop (rel + query.length), ?_, ?_, ?_⟩
    · simp only [hlChars, hfind, hrel]
    · rw [← List.drop_drop, List.append_assoc, List.take_append_drop,
        List.take_append_drop]
    · have hs := pyFind_some _ _ _ hrel
      have ht := startsWithL_take _ _ hs
      simp only [lowerL, List.length_map] at ht ⊢
      rw [List.map_take, List.map_drop]
      exact ht
  · intro hnone
    simp only [hlChars, hfind, hnone]

/-- C6 witness: the amended statement at the spec's own example, content
`"The defendant committed theft in broad daylight"` and query `"theft"`
(first occurrence at index 24). -/
theorem c6_snippet_found_witness :
    (∃ u v, u ++ snipOf "The defendant committed theft in broad daylight".data
        24 120 ++ v = "The defendant committed theft in broad daylight".data)
    ∧ (∀ rel, pyFind (lowerL (snipOf
          "The defendant committed theft in broad daylight".data 24 120))
          (lowerL "theft".data) = some rel →
        ∃ pre mat post,
          hlChars "The defendant committed theft in broad daylight".data
              "theft".data 120 = pre ++ hlOpen ++ mat ++ hlClose ++ post
          ∧ pre ++ mat ++ post = snipOf
              "The defendant committed theft in broad daylight".data 24 120
          ∧ lowerL mat = lowerL "theft".data)
    ∧ (pyFind (lowerL (snipOf
          "The defendant committed theft in broad daylight".data 24 120))
          (lowerL "theft".data) = none →
        hlChars "The defendant committed theft in broad daylight".data
          "theft".data 120 = snipOf
          "The defendant committed theft in broad daylight".data 24 120) :=
  c6_snippet_found "The defendant committed theft in broad daylight".data
    "theft".data 120 24 (by decide)

/-- C7 counterexample: when the query is absent, the CLI snippet is the
`.strip()` of the first `window` characters, not those characters
themselves — leading whitespace of `" abc"` is dropped — and newlines are
not normalized to spaces in the CLI variant. -/
theorem c7_counterexample :
    highlight_snippet " abc" "xyz" 120 = "abc"
    ∧ ("abc" : String) ≠ " abc"
    ∧ highlight_snippet "a\nb" "xyz" 120 = "a\nb"
    ∧ ('\n' ∈ ("a\nb" : String).data) := by
  refine ⟨by decide, by decide, by decide, by decide⟩

/-- C7 amended: when the query does not occur case-insensitively in the
content, the snippet equals the first `min(window, len(content))`
characters of the content stripped of leading and trailing whitespace; it
is a substring of the content (so no highlight markers are introduced) and
has at most `min(window, len(content))` characters.  Newlines are
normalized to spaces only by the GUI variant, not by this CLI variant. -/
theorem c7_snippet_not_found (content query : List Char) (w : Nat)
    (hfind : pyFind (lowerL content) (lowerL query) = none) :
    hlChars content query w = pyStrip (content.take (min w content.length))
    ∧ (∃ u v, u ++ hlChars content query w ++ v = content)
    ∧ (hlChars content query w).length ≤ min w content.length := by
  have h1 : hlChars content query w =
      pyStrip (content.take (min w content.length)) := by
    simp only [hlChars, hfind]
  refine ⟨h1, ?_, ?_⟩
  · rw [h1]
    exact subseg_trans (pyStrip_subseg _)
      ⟨[], content.drop (min w content.length), by simp⟩
  · rw [h1]
    have h2 := pyStrip_length_le (content.take (min w content.length))
    have h3 : (content.take (min w content.length)).length =
        min w content.length := by
      rw [List.length_take]; omega
    rw [h3] at h2
    exact h2

/-- C7 witness: the amended statement at the spec's own example, content
`"Lorem ipsum dolor"` and query `"xyz"`. -/
theorem c7_snippet_not_found_witness :
    hlChars "Lorem ipsum dolor".data "xyz".data 120 =
      pyStrip ("Lorem ipsum dolor".data.take
        (min 120 "Lorem ipsum dolor".data.length))
    ∧ (∃ u v, u ++ hlChars "Lorem ipsum dolor".data "xyz".data 120 ++ v =
        "Lorem ipsum dolor".data)
    ∧ (hlChars "Lorem ipsum dolor".data "xyz".data 120).length ≤
        min 120 "Lorem ipsum dolor".data.length :=
  c7_snippet_not_found "Lorem ipsum dolor".data "xyz".data 120 (by decide)

/-- C8 counterexample: a candidate whose mtime read raises is skipped with
no store write at all — no change-tracking record is written for it, in
either pipeline, contradicting the claim that one is written after every
processing attempt including metadata-read failures. -/
theorem c8_counterexample :
    index_pdfs_gui_step true ⟨[], []⟩ cUnreadable =
      (⟨[], []⟩, Outcome.skippedUnreadable)
    ∧ index_pdfs_step true true 100 ⟨[], []⟩ cUnreadable =
      (⟨[], []⟩, Outcome.skippedUnreadable)
    ∧ (index_pdfs_gui_step true ⟨[], []⟩ cUnreadable).1.files_meta = [] := by
  refine ⟨rfl, rfl, rfl⟩

/-- C8 amended: for every candidate whose mtime read succeeds, the
change-tracking table holds `(path, current mtime)` after the attempt —
both when the candidate is processed (even if extraction yielded empty
text or, in the GUI pipeline, the guarded record write failed) and when it
is skipped as unchanged.  When the mtime read fails, the candidate is
skipped without any store write and is retried on the next run. -/
theorem c8_meta_after_attempt (has_fts use_ocr : Bool) (min_text_chars : Nat)
    (db : DB) (c : Candidate) (m : Int) (hm : c.mtime = some m) :
    metaLookup (index_pdfs_gui_step has_fts db c).1.files_meta c.path = some m
    ∧ metaLookup (index_pdfs_step has_fts use_ocr min_text_chars db c).1.files_meta
      c.path = some m := by
  by_cases h : metaLookup db.files_meta c.path = some m
  · simp [index_pdfs_gui_step, index_pdfs_step, hm, h]
  · simp [index_pdfs_gui_step, index_pdfs_step, hm, h,
      metaLookup_metaUpsert_self]

/-- C8 witness: the amended statement at a concrete readable candidate and
an empty store. -/
theorem c8_meta_after_attempt_witness :
    metaLookup (index_pdfs_gui_step true ⟨[], []⟩ cSample).1.files_meta
      cSample.path = some 5
    ∧ metaLookup (index_pdfs_step true true 100 ⟨[], []⟩ cSample).1.files_meta
      cSample.path = some 5 :=
  c8_meta_after_attempt true true 100 ⟨[], []⟩ cSample 5 rfl

theorem index_pdfs_gui_loop_cancel (has_fts : Bool) (cancel : Nat → Bool) :
    ∀ (cands : List Candidate) (k n : Nat) (db : DB),
      (∀ i, i < k → cancel (n + i) = false) → cancel (n + k) = true →
      k ≤ cands.length →
      index_pdfs_gui_loop has_fts cancel db n cands =
        ((cands.take k).foldl
          (fun d c => (index_pdfs_gui_step has_fts d c).1) db, n + k) := by
  intro cands
  induction cands with
  | nil =>
      intro k n db _ _ hlen
      have hk : k = 0 := Nat.le_zero.mp (by simpa using hlen)
      subst hk
      simp [index_pdfs_gui_loop]
  | cons c t ih =>
      intro k n db hlt hk hlen
      cases k with
      | zero =>
          have hc : cancel n = true := by simpa using hk
          simp [index_pdfs_gui_loop, hc]
      | succ j =>
          have hc : cancel n = false := by
            simpa using hlt 0 (Nat.succ_pos j)
          have h1 : ∀ i, i < j → cancel (n + 1 + i) = false := by
            intro i hi
            have e : n + 1 + i = n + (i + 1) := by omega
            rw [e]
            exact hlt (i + 1) (by omega)
          have h2 : cancel (n + 1 + j) = true := by
            have e : n + 1 + j = n + (j + 1) := by omega
            rw [e]
            exact hk
          have h3 : j ≤ t.length := by
            have := hlen
            simp at this
            omega
          have hrec := ih j (n + 1) (index_pdfs_gui_step has_fts db c).1 h1 h2 h3
          simp only [index_pdfs_gui_loop, hc, Bool.false_eq_true, if_false]
          rw [hrec]
          simp only [List.take_succ_cons, List.foldl_cons, Prod.mk.injEq]
          exact ⟨by trivial, by omega⟩

/-- C9: if the cancellation flag is first observed set at the start of
iteration `k` (it was clear at the start of every earlier iteration), the
GUI indexing run stops there: the final store state is exactly the fold of
the per-candidate step over the first `k` candidates — every earlier
commit is kept, no later candidate causes any store write — and exactly
`k` committed-or-skipped outcomes were counted. -/
theorem c9_cancellation (has_fts : Bool) (cancel : Nat → Bool) (db : DB)
    (cands : List Candidate) (k : Nat)
    (hbefore : ∀ i, i < k → cancel i = false) (hat : cancel k = true)
    (hk : k ≤ cands.length) :
    index_pdfs_gui_loop has_fts cancel db 0 cands =
      ((cands.take k).foldl
        (fun d c => (index_pdfs_gui_step has_fts d c).1) db, k) := by
  have h := index_pdfs_gui_loop_cancel has_fts cancel cands k 0 db
    (by simpa using hbefore) (by simpa using hat) hk
  simpa using h

/-- C9 witness: two candidates with the flag set from iteration 1 on — the
run performs exactly the first step and counts one outcome. -/
theorem c9_cancellation_witness :
    index_pdfs_gui_loop true (fun n => decide (1 ≤ n)) ⟨[], []⟩ 0
        [cSample, cUnreadable] =
      (([cSample, cUnreadable].take 1).foldl
        (fun d c => (index_pdfs_gui_step true d c).1) ⟨[], []⟩, 1) :=
  c9_cancellation true (fun n => decide (1 ≤ n)) ⟨[], []⟩
    [cSample, cUnreadable] 1 (by decide) (by decide) (by decide)

/-- A row already indexed for the path re-indexed in the C10 scenario. -/
def rowOld : CaseRow := ⟨"p", "2019", "/cases/2019/p.pdf", "OLD CONTENT"⟩

/-- A store that already holds `rowOld` and its change-tracking record. -/
def dbOld : DB := ⟨[("/cases/2019/p.pdf", 1)], [rowOld]⟩

/-- A changed candidate for the same path whose guarded `DELETE` raises. -/
def cFailDelete : Candidate :=
  ⟨"/cases/2019/p.pdf", some 2,
    ⟨true, [PageOutcome.ok (some "NEW CONTENT")]⟩, ⟨true, []⟩,
    FtsWrite.failDelete⟩

/-- C10 counterexample: when the guarded `DELETE` itself raises for a path
that already had a Document Record, the exception is swallowed and the new
mtime committed — but a (stale) Document Record for the path still exists,
contradicting the claim that no Document Record for the file exists. -/
theorem c10_counterexample :
    (index_pdfs_gui_step true dbOld cFailDelete).2 = Outcome.processed
    ∧ metaLookup (index_pdfs_gui_step true dbOld cFailDelete).1.files_meta
        "/cases/2019/p.pdf" = some 2
    ∧ rowOld ∈ (index_pdfs_gui_step true dbOld cFailDelete).1.cases
    ∧ rowOld.path = "/cases/2019/p.pdf"
    ∧ rowOld.content ≠ "NEW CONTENT" := by
  refine ⟨rfl, rfl, by decide, rfl, by decide⟩

/-- C10 amended: in the GUI pipeline's native full-text mode, if the
guarded Document Record write raises, the exception is swallowed and the
change-tracking record with the new mtime is still written and committed;
the candidate is therefore skipped as unchanged on a re-run with the same
on-disk mtime, even though its Document Record was not updated — no record
for the path exists if the `INSERT` failed (or none existed before), while
a stale prior record remains if the `DELETE` itself failed. -/
theorem c10_swallowed_write_failure (db : DB) (c : Candidate) (m : Int)
    (hm : c.mtime = some m) (hnew : metaLookup db.files_meta c.path ≠ some m)
    (hfail : c.ftsWrite ≠ FtsWrite.ok) :
    (index_pdfs_gui_step true db c).2 = Outcome.processed
    ∧ metaLookup (index_pdfs_gui_step true db c).1.files_meta c.path = some m
    ∧ (c.ftsWrite = FtsWrite.failDelete →
        (index_pdfs_gui_step true db c).1.cases = db.cases)
    ∧ (c.ftsWrite = FtsWrite.failInsert →
        (index_pdfs_gui_step true db c).1.cases = delete_fts db.cases c.path)
    ∧ (index_pdfs_gui_step true (index_pdfs_gui_step true db c).1 c).2 =
        Outcome.skippedUnchanged := by
  cases hw : c.ftsWrite with
  | ok => exact absurd hw hfail
  | failDelete =>
      simp [index_pdfs_gui_step, hm, hnew, hw, metaLookup_metaUpsert_self]
  | failInsert =>
      simp [index_pdfs_gui_step, hm, hnew, hw, metaLookup_metaUpsert_self]

/-- C10 witness: the amended statement at the concrete failing-delete
scenario. -/
theorem c10_swallowed_write_failure_witness :
    (index_pdfs_gui_step true dbOld cFailDelete).2 = Outcome.processed
    ∧ metaLookup (index_pdfs_gui_step true dbOld cFailDelete).1.files_meta
        cFailDelete.path = some 2
    ∧ (cFailDelete.ftsWrite = FtsWrite.failDelete →
        (index_pdfs_gui_step true dbOld cFailDelete).1.cases = dbOld.cases)
    ∧ (cFailDelete.ftsWrite = FtsWrite.failInsert →
        (index_pdfs_gui_step true dbOld cFailDelete).1.cases =
          delete_fts dbOld.cases cFailDelete.path)
    ∧ (index_pdfs_gui_step true
        (index_pdfs_gui_step true dbOld cFailDelete).1 cFailDelete).2 =
        Outcome.skippedUnchanged :=
  c10_swallowed_write_failure dbOld cFailDelete 2 rfl (by decide) (by decide)
